import Mathlib

/-!
Shallow embedding of the resilient crawl orchestrator of the
leboncoin_bot repository: the delay manager (src/utils/delays.py), the
CAPTCHA / rate-limit handler (src/utils/captcha_handler.py), the session
and record model (src/models/ad.py) and the orchestrator itself
(src/core/scraper.py, class AdvancedScraper).

Modelling conventions:
- Python floats (delays, timestamps) are modelled as exact rationals; the
  claims settled here are not sensitive to float rounding (1.2 is 6/5).
- The selenium WebDriver is external.  Each page fetch is driven by a
  DriverReport value describing everything the driver reports for that
  fetch: whether navigation raised, whether a CAPTCHA element is visible,
  whether the manual-resolution poll would succeed, whether rate-limit
  text occurs in the page source, whether the ads container appears
  within the timeout, and the list of ad elements found.  Exceptions are
  modelled as raised at navigation (driver.get), the first driver call of
  the try block in _scrape_page.
- Blocking sleeps are modelled by their durations (pure values); the
  random draws of random.uniform are explicit parameters.
- The numeric price parsing of Ad._extract_numeric_price (clean_price)
  is not modelled: no claim concerns it and the title handling of
  Ad.__post_init__ does not depend on it.
-/

namespace LBC

/-- Error entry appended to the session error list by _scrape_page,
mirroring the f-string "Page {page_num}: {msg}" of the source. -/
def errorEntry (page_num : Nat) (msg : String) : String :=
  "Page " ++ toString page_num ++ ": " ++ msg

/-! ## Delay manager (src/utils/delays.py, class SmartDelayManager) -/

/-- State of SmartDelayManager.  consecutive_errors is a Python int,
modelled as an integer (the floor at 0 is an explicit max in
record_success, exactly as in the source). -/
structure SmartDelayManager where
  min_delay : ℚ
  max_delay : ℚ
  consecutive_errors : ℤ
  last_request_time : Option ℚ
  deriving Repr, DecidableEq

/-- Constructor SmartDelayManager.__init__ (defaults 1.0 and 5.0). -/
def SmartDelayManager.init (min_delay : ℚ := 1) (max_delay : ℚ := 5) :
    SmartDelayManager :=
  { min_delay := min_delay, max_delay := max_delay,
    consecutive_errors := 0, last_request_time := none }

/-- Base delay computed by wait_between_requests:
base_delay = min(min_delay * 1.2 ** min(consecutive_errors, 5), max_delay).
The exponent is taken as a natural number; reachable states have
consecutive_errors >= 0 (see the delay-state invariant below). -/
def SmartDelayManager.base_delay (m : SmartDelayManager) : ℚ :=
  min (m.min_delay * (1.2 : ℚ) ^ (min m.consecutive_errors 5).toNat) m.max_delay

/-- record_success: consecutive_errors = max(0, consecutive_errors - 1). -/
def SmartDelayManager.record_success (m : SmartDelayManager) : SmartDelayManager :=
  { m with consecutive_errors := max 0 (m.consecutive_errors - 1) }

/-- record_error: consecutive_errors += 1. -/
def SmartDelayManager.record_error (m : SmartDelayManager) : SmartDelayManager :=
  { m with consecutive_errors := m.consecutive_errors + 1 }

/-- Sleep duration of wait_after_captcha: base_time + random.uniform(10, 30),
with the uniform draw an explicit parameter. -/
def wait_after_captcha_sleep (base_time r : ℚ) : ℚ := base_time + r

/-- Sleep duration of wait_between_requests, given the jitter draw of
random.uniform(0.8, 1.2) and the current time.  When a last request time
exists only the remaining part of the jittered delay is slept. -/
def SmartDelayManager.wait_between_requests_sleep (m : SmartDelayManager)
    (jitter now : ℚ) : ℚ :=
  let delay := m.base_delay * jitter
  match m.last_request_time with
  | some t => max 0 (delay - (now - t))
  | none => delay

/-- State update of wait_between_requests: last_request_time is set to the
wake-up time; consecutive_errors is untouched. -/
def SmartDelayManager.wait_between_requests_state (m : SmartDelayManager)
    (now : ℚ) : SmartDelayManager :=
  { m with last_request_time := some now }

/-- Operations on the delay manager issued by the orchestrator, for
stating invariants over arbitrary interleavings of calls. -/
inductive DelayOp where
  | success
  | error
  deriving Repr, DecidableEq

/-- Apply one record_success / record_error call. -/
def SmartDelayManager.apply_op (m : SmartDelayManager) : DelayOp → SmartDelayManager
  | DelayOp.success => m.record_success
  | DelayOp.error => m.record_error

/-! ## CAPTCHA / rate-limit handler (src/utils/captcha_handler.py) -/

/-- State of CaptchaHandler: the configured ceiling and the monotone
counter of CAPTCHA encounters. -/
structure CaptchaHandler where
  max_captcha_encounters : ℕ
  captcha_count : ℕ
  deriving Repr, DecidableEq

/-- Constructor CaptchaHandler.__init__ (default ceiling 5). -/
def CaptchaHandler.init (max_captcha_encounters : ℕ := 5) : CaptchaHandler :=
  { max_captcha_encounters := max_captcha_encounters, captcha_count := 0 }

/-- should_continue_scraping: captcha_count <= max_captcha_encounters. -/
def CaptchaHandler.should_continue_scraping (h : CaptchaHandler) : Bool :=
  h.captcha_count ≤ h.max_captcha_encounters

/-- Result of handle_captcha_manually: the updated handler state, the
returned boolean, and whether the blocking WebDriverWait poll was
entered at all. -/
structure CaptchaHandleResult where
  handler : CaptchaHandler
  resolved : Bool
  entered_poll : Bool
  deriving Repr, DecidableEq

/-- handle_captcha_manually: increments captcha_count first; if the count
now exceeds the ceiling it returns False immediately, without entering
the blocking poll-wait; otherwise it polls until the CAPTCHA disappears
or the timeout elapses (the poll outcome is the parameter
poll_resolves: True on resolution, False on TimeoutException). -/
def CaptchaHandler.handle_captcha_manually (h : CaptchaHandler)
    (poll_resolves : Bool) : CaptchaHandleResult :=
  let h2 := { h with captcha_count := h.captcha_count + 1 }
  if h2.max_captcha_encounters < h2.captcha_count then
    { handler := h2, resolved := false, entered_poll := false }
  else
    { handler := h2, resolved := poll_resolves, entered_poll := true }

/-! ## Record and session model (src/models/ad.py) -/

/-- Python str.strip(): drop leading and trailing whitespace.  Defined
over the character list so that it evaluates by kernel reduction. -/
def pyStrip (s : String) : String :=
  String.mk
    (((s.data.dropWhile Char.isWhitespace).reverse.dropWhile
      Char.isWhitespace).reverse)

/-- One scraped listing (dataclass Ad), without the derived clean_price. -/
structure Ad where
  title : String
  price : String
  url : String
  location : String
  category : String
  keyword : String
  page_number : ℕ
  deriving Repr, DecidableEq

/-- Dataclass construction of Ad including the __post_init__ title
handling: self.title = self.title.strip() if self.title else
"Titre non disponible" (the Python truthiness test is emptiness for
strings).  category, keyword and page_number take their dataclass
defaults; the orchestrator assigns them after construction. -/
def mkAd (title price url location : String) : Ad :=
  { title := if title = "" then "Titre non disponible" else pyStrip title,
    price := price, url := url, location := location,
    category := "", keyword := "", page_number := 0 }

/-- Field assignments performed by _scrape_page after extraction:
ad_data.category, ad_data.keyword, ad_data.page_number. -/
def Ad.with_meta (a : Ad) (category keyword : String) (page_number : ℕ) : Ad :=
  { a with category := category, keyword := keyword, page_number := page_number }

/-- Per-run session statistics (dataclass ScrapingSession); start_time and
the derived wall-clock duration are not modelled. -/
structure ScrapingSession where
  total_ads_found : ℕ
  successful_pages : ℕ
  failed_pages : ℕ
  captcha_encounters : ℕ
  errors : List String
  deriving Repr, DecidableEq

/-- Fresh session at construction time. -/
def ScrapingSession.init : ScrapingSession :=
  { total_ads_found := 0, successful_pages := 0, failed_pages := 0,
    captcha_encounters := 0, errors := [] }

/-- Property ScrapingSession.success_rate:
successful_pages / (successful_pages + failed_pages) * 100 when the
total is positive, else 0. -/
def ScrapingSession.success_rate (s : ScrapingSession) : ℚ :=
  let total := s.successful_pages + s.failed_pages
  if 0 < total then (s.successful_pages : ℚ) / (total : ℚ) * 100 else 0

/-! ## Page driver reports (the external selenium boundary) -/

/-- Exception raised inside the try block of _scrape_page, modelled at
navigation: either a selenium WebDriverException or any other
exception (the two except clauses of the source). -/
inductive NavFault where
  | webdriver (msg : String)
  | other (msg : String)
  deriving Repr, DecidableEq

/-- What one DOM ad element yields to _extract_ad_data: the stripped-to-be
text of the title / price / location sub-elements (none models a
NoSuchElementException), the href attribute (none models a null
attribute, coalesced to "" by the source), and whether the surrounding
extraction raises (the outer except clause, returning None). -/
structure AdElementData where
  title_text : Option String
  price_text : Option String
  href : Option String
  location_text : Option String
  raises : Bool
  deriving Repr, DecidableEq

/-- Everything the page driver reports for one fetch of one URL. -/
structure DriverReport where
  fault : Option NavFault
  now : ℚ
  captcha_visible : Bool
  captcha_poll_resolves : Bool
  rate_limit_text : Bool
  container_appears : Bool
  elements : List AdElementData
  deriving Repr, DecidableEq

/-- Report of a structurally successful page fetch with zero ad elements:
no fault, no CAPTCHA, no rate-limit text, container present, no
elements. -/
def DriverReport.empty_success (r : DriverReport) : Prop :=
  r.fault = none ∧ r.captcha_visible = false ∧ r.rate_limit_text = false ∧
    r.container_appears = true ∧ r.elements = []

instance (r : DriverReport) : Decidable r.empty_success := by
  unfold DriverReport.empty_success
  infer_instance

/-! ## Orchestrator (src/core/scraper.py, class AdvancedScraper) -/

/-- _extract_ad_data: each field independently fault tolerant; a missing
title or price yields a sentinel, a missing href yields "", a missing
location yields ""; an outer exception yields None. -/
def extract_ad_data (e : AdElementData) : Option Ad :=
  if e.raises then none
  else
    let title := match e.title_text with
      | some t => pyStrip t
      | none => "Titre non disponible"
    let price := match e.price_text with
      | some t => pyStrip t
      | none => "Prix non disponible"
    let url := e.href.getD ""
    let location := match e.location_text with
      | some t => pyStrip t
      | none => ""
    some (mkAd title price url location)

/-- Mutable state owned by the orchestrator: the session record, the
delay manager and the CAPTCHA handler. -/
structure ScrapeState where
  session : ScrapingSession
  delay : SmartDelayManager
  captcha : CaptchaHandler
  deriving Repr, DecidableEq

/-- Outcome of one _scrape_page call: the updated orchestrator state, the
extracted ads, the returned success flag, the base seconds passed to
wait_after_captcha when that escalation was invoked (none otherwise),
and whether the manual-resolution poll-wait was entered. -/
structure ScrapePageResult where
  st : ScrapeState
  ads : List Ad
  success : Bool
  waited_after_anomaly : Option ℚ
  entered_captcha_poll : Bool
  deriving Repr, DecidableEq

/-- Tail of _scrape_page after the CAPTCHA check: the rate-limit check
(escalating to wait_after_captcha(60) and returning failure), the
ads-container wait (failed_pages += 1 on timeout), the empty-elements
early return (success with no ads and no counter change), and the
extraction loop followed by successful_pages += 1 and record_success. -/
def scrape_page_rest (st : ScrapeState) (r : DriverReport)
    (category keyword : String) (page_num : ℕ) (entered : Bool) :
    ScrapePageResult :=
  if r.rate_limit_text then
    { st := st, ads := [], success := false,
      waited_after_anomaly := some 60, entered_captcha_poll := entered }
  else if r.container_appears = false then
    { st := { st with session :=
        { st.session with failed_pages := st.session.failed_pages + 1 } },
      ads := [], success := false,
      waited_after_anomaly := none, entered_captcha_poll := entered }
  else if r.elements = [] then
    { st := st, ads := [], success := true,
      waited_after_anomaly := none, entered_captcha_poll := entered }
  else
    let ads := (r.elements.filterMap extract_ad_data).map
      (fun a => a.with_meta category keyword page_num)
    { st := { st with
        session := { st.session with
          successful_pages := st.session.successful_pages + 1 },
        delay := st.delay.record_success },
      ads := ads, success := true,
      waited_after_anomaly := none, entered_captcha_poll := entered }

/-- _scrape_page: navigation (a raised exception lands in one of the two
except clauses: both append to errors and increment failed_pages, the
WebDriverException one also calls record_error), then
wait_between_requests, then the CAPTCHA check (a detected CAPTCHA whose
manual handling fails returns failure at once), then the tail above. -/
def scrape_page (st : ScrapeState) (r : DriverReport)
    (category keyword : String) (page_num : ℕ) : ScrapePageResult :=
  match r.fault with
  | some (NavFault.webdriver msg) =>
      { st := { st with
          session := { st.session with
            errors := st.session.errors ++ [errorEntry page_num msg],
            failed_pages := st.session.failed_pages + 1 },
          delay := st.delay.record_error },
        ads := [], success := false,
        waited_after_anomaly := none, entered_captcha_poll := false }
  | some (NavFault.other msg) =>
      { st := { st with
          session := { st.session with
            errors := st.session.errors ++ [errorEntry page_num msg],
            failed_pages := st.session.failed_pages + 1 } },
        ads := [], success := false,
        waited_after_anomaly := none, entered_captcha_poll := false }
  | none =>
      let st1 := { st with delay := st.delay.wait_between_requests_state r.now }
      if r.captcha_visible then
        let hr := st1.captcha.handle_captcha_manually r.captcha_poll_resolves
        let st2 := { st1 with captcha := hr.handler }
        if hr.resolved then
          scrape_page_rest st2 r category keyword page_num hr.entered_poll
        else
          { st := st2, ads := [], success := false,
            waited_after_anomaly := none,
            entered_captcha_poll := hr.entered_poll }
      else
        scrape_page_rest st1 r category keyword page_num false

/-- Result of the per-keyword page loop: final state, the accumulated
keyword_ads, and the page numbers actually fetched (driver.get issued). -/
structure KeywordRun where
  st : ScrapeState
  keyword_ads : List Ad
  fetched : List ℕ
  deriving Repr, DecidableEq

/-- Page loop of scrape_target for one keyword, for page in
range(1, max_pages + 1): before each fetch the two global stop
conditions are checked (error budget, CAPTCHA ceiling); a successful
page with ads resets consecutive_empty_pages to 0, a successful empty
page increments it and stops the loop at 3 (max_empty_pages), a failed
page only sleeps 10 seconds.  Arguments after the keyword: current page
number, consecutive_empty_pages, remaining iterations, state, ads
accumulator, fetched-pages accumulator. -/
def keyword_pages (max_consecutive_errors : ℕ) (reports : ℕ → DriverReport)
    (category keyword : String) :
    ℕ → ℕ → ℕ → ScrapeState → List Ad → List ℕ → KeywordRun
  | _page, _cep, 0, st, acc, fetched =>
      { st := st, keyword_ads := acc, fetched := fetched }
  | page, cep, rem + 1, st, acc, fetched =>
      if max_consecutive_errors < st.session.errors.length then
        { st := st, keyword_ads := acc, fetched := fetched }
      else if st.captcha.should_continue_scraping = false then
        { st := st, keyword_ads := acc, fetched := fetched }
      else
        let res := scrape_page st (reports page) category keyword page
        if res.success then
          if res.ads = [] then
            if 3 ≤ cep + 1 then
              { st := res.st, keyword_ads := acc, fetched := fetched ++ [page] }
            else
              keyword_pages max_consecutive_errors reports category keyword
                (page + 1) (cep + 1) rem res.st acc (fetched ++ [page])
          else
            keyword_pages max_consecutive_errors reports category keyword
              (page + 1) 0 rem res.st (acc ++ res.ads) (fetched ++ [page])
        else
          keyword_pages max_consecutive_errors reports category keyword
            (page + 1) cep rem res.st acc (fetched ++ [page])

/-- One keyword of scrape_target: the loop starts at page 1 with
consecutive_empty_pages = 0 and empty accumulators. -/
def scrape_keyword (max_consecutive_errors : ℕ) (reports : ℕ → DriverReport)
    (category keyword : String) (max_pages : ℕ) (st : ScrapeState) : KeywordRun :=
  keyword_pages max_consecutive_errors reports category keyword
    1 0 max_pages st [] []

/-- Keyword iteration of scrape_target: keywords are processed
sequentially, each with a fresh consecutive_empty_pages counter; results
are the final state, the concatenated ads and the fetched pages tagged
with their keyword. -/
def scrape_keywords (max_consecutive_errors : ℕ)
    (reports : String → ℕ → DriverReport) (category : String) (max_pages : ℕ) :
    List String → ScrapeState → ScrapeState × List Ad × List (String × ℕ)
  | [], st => (st, [], [])
  | k :: rest, st =>
      let kr := scrape_keyword max_consecutive_errors (reports k) category k
        max_pages st
      let r2 := scrape_keywords max_consecutive_errors reports category
        max_pages rest kr.st
      (r2.1, kr.keyword_ads ++ r2.2.1,
        kr.fetched.map (fun p => (k, p)) ++ r2.2.2)

/-- A configured target: name, category and keyword list. -/
structure TargetSpec where
  name : String
  category : String
  keywords : List String
  deriving Repr, DecidableEq

/-- scrape_target: iterate the keywords, then
session.total_ads_found += len(all_ads). -/
def scrape_target (max_consecutive_errors : ℕ)
    (reports : String → String → ℕ → DriverReport) (max_pages : ℕ)
    (st : ScrapeState) (t : TargetSpec) :
    ScrapeState × List Ad × List (String × ℕ) :=
  let r := scrape_keywords max_consecutive_errors (reports t.category)
    t.category max_pages t.keywords st
  ({ r.1 with session := { r.1.session with
      total_ads_found := r.1.session.total_ads_found + r.2.1.length } },
    r.2.1, r.2.2)

/-- scrape_all_targets: targets processed sequentially (the inter-target
30 second pause has no state effect and is not modelled); fetched pages
are tagged with the target name. -/
def scrape_all_targets (max_consecutive_errors : ℕ)
    (reports : String → String → ℕ → DriverReport) (max_pages : ℕ) :
    List TargetSpec → ScrapeState → ScrapeState × List Ad × List (String × String × ℕ)
  | [], st => (st, [], [])
  | t :: rest, st =>
      let r1 := scrape_target max_consecutive_errors reports max_pages st t
      let r2 := scrape_all_targets max_consecutive_errors reports max_pages
        rest r1.1
      (r2.1, r1.2.1 ++ r2.2.1, r1.2.2.map (fun kp => (t.name, kp)) ++ r2.2.2)

/-! ## Helper machinery for loop-level reasoning

last_request_time is written by every wait_between_requests call but read
by no control decision; scrub normalizes it away so that states reached
along different histories can be compared on everything the crawl logic
observes (session, CAPTCHA state, delay configuration and error count). -/

/-- State with last_request_time cleared. -/
def scrub (st : ScrapeState) : ScrapeState :=
  { st with delay := { st.delay with last_request_time := none } }

/-- State after one wait_between_requests call at time v. -/
def set_lrt (st : ScrapeState) (v : ℚ) : ScrapeState :=
  { st with delay := st.delay.wait_between_requests_state v }

theorem scrub_set_lrt (st : ScrapeState) (v : ℚ) :
    scrub (set_lrt st v) = scrub st := rfl

theorem set_lrt_set_lrt (st : ScrapeState) (a b : ℚ) :
    set_lrt (set_lrt st a) b = set_lrt st b := rfl

/-- Two states agreeing after scrub produce the same page outcome up to
scrub: same records, same success flag, same anomaly wait, and final
states again agreeing after scrub. -/
theorem scrape_page_scrub_congr (st st2 : ScrapeState) (r : DriverReport)
    (category keyword : String) (page_num : ℕ) (h : scrub st = scrub st2) :
    scrub (scrape_page st r category keyword page_num).st =
        scrub (scrape_page st2 r category keyword page_num).st ∧
      (scrape_page st r category keyword page_num).ads =
        (scrape_page st2 r category keyword page_num).ads ∧
      (scrape_page st r category keyword page_num).success =
        (scrape_page st2 r category keyword page_num).success := by
  rcases st with ⟨ses, ⟨mn, mx, ce, lrt⟩, cap⟩
  rcases st2 with ⟨ses2, ⟨mn2, mx2, ce2, lrt2⟩, cap2⟩
  simp only [scrub, ScrapeState.mk.injEq, SmartDelayManager.mk.injEq, and_true] at h
  obtain ⟨hses, ⟨hmn, hmx, hce⟩, hcap⟩ := h
  subst hses; subst hmn; subst hmx; subst hce; subst hcap
  rcases r with ⟨fault, now, cv, cpr, rl, ca, els⟩
  cases fault with
  | none =>
      simp [scrape_page, SmartDelayManager.wait_between_requests_state]
  | some nf =>
      cases nf <;>
        simp [scrape_page, scrub, SmartDelayManager.record_error]

/-- Lifting of scrape_page_scrub_congr to the per-keyword page loop. -/
theorem keyword_pages_scrub_congr (mce : ℕ) (reports : ℕ → DriverReport)
    (category keyword : String) :
    ∀ (rem page cep : ℕ) (st st2 : ScrapeState) (acc : List Ad) (f : List ℕ),
      scrub st = scrub st2 →
      scrub (keyword_pages mce reports category keyword page cep rem st acc f).st =
          scrub (keyword_pages mce reports category keyword page cep rem st2 acc f).st ∧
        (keyword_pages mce reports category keyword page cep rem st acc f).keyword_ads =
          (keyword_pages mce reports category keyword page cep rem st2 acc f).keyword_ads ∧
        (keyword_pages mce reports category keyword page cep rem st acc f).fetched =
          (keyword_pages mce reports category keyword page cep rem st2 acc f).fetched := by
  intro rem
  induction rem with
  | zero => intro page cep st st2 acc f h; exact ⟨h, rfl, rfl⟩
  | succ rem ih =>
      intro page cep st st2 acc f h
      have hses0 : (scrub st).session = (scrub st2).session :=
        congrArg (fun s : ScrapeState => s.session) h
      have hcap0 : (scrub st).captcha = (scrub st2).captcha :=
        congrArg (fun s : ScrapeState => s.captcha) h
      have hses : st.session = st2.session := hses0
      have hcap : st.captcha = st2.captcha := hcap0
      simp only [keyword_pages]
      rw [← hses, ← hcap]
      by_cases hb1 : mce < st.session.errors.length
      · rw [if_pos hb1, if_pos hb1]
        exact ⟨h, rfl, rfl⟩
      · rw [if_neg hb1, if_neg hb1]
        by_cases hb2 : st.captcha.should_continue_scraping = false
        · rw [if_pos hb2, if_pos hb2]
          exact ⟨h, rfl, rfl⟩
        · rw [if_neg hb2, if_neg hb2]
          obtain ⟨hA, hB, hC⟩ := scrape_page_scrub_congr st st2
            (reports page) category keyword page h
          rw [← hB, ← hC]
          by_cases hs : (scrape_page st (reports page) category keyword page).success = true
          · rw [if_pos hs, if_pos hs]
            by_cases ha : (scrape_page st (reports page) category keyword page).ads = []
            · rw [if_pos ha, if_pos ha]
              by_cases h3 : 3 ≤ cep + 1
              · rw [if_pos h3, if_pos h3]
                exact ⟨hA, rfl, rfl⟩
              · rw [if_neg h3, if_neg h3]
                exact ih (page + 1) (cep + 1) _ _ acc (f ++ [page]) hA
            · rw [if_neg ha, if_neg ha]
              exact ih (page + 1) 0 _ _ _ (f ++ [page]) hA
          · rw [if_neg hs, if_neg hs]
            exact ih (page + 1) cep _ _ acc (f ++ [page]) hA

/-- Lifting of the congruence to the keyword iteration of scrape_target. -/
theorem scrape_keywords_scrub_congr (mce : ℕ) (reports : String → ℕ → DriverReport)
    (category : String) (max_pages : ℕ) :
    ∀ (ks : List String) (st st2 : ScrapeState), scrub st = scrub st2 →
      scrub (scrape_keywords mce reports category max_pages ks st).1 =
          scrub (scrape_keywords mce reports category max_pages ks st2).1 ∧
        (scrape_keywords mce reports category max_pages ks st).2.1 =
          (scrape_keywords mce reports category max_pages ks st2).2.1 ∧
        (scrape_keywords mce reports category max_pages ks st).2.2 =
          (scrape_keywords mce reports category max_pages ks st2).2.2 := by
  intro ks
  induction ks with
  | nil => intro st st2 h; exact ⟨h, rfl, rfl⟩
  | cons k rest ih =>
      intro st st2 h
      obtain ⟨hA, hB, hC⟩ := keyword_pages_scrub_congr mce (reports k) category k
        max_pages 1 0 st st2 [] [] h
      obtain ⟨iA, iB, iC⟩ := ih _ _ hA
      simp only [scrape_keywords, scrape_keyword]
      exact ⟨iA, by rw [hB, iB], by rw [hC, iC]⟩

/-- One iteration of the page loop on a structurally successful empty
page under intact budgets: the empty-page counter is incremented, the
loop stops at 3, and the state changes only by last_request_time. -/
theorem keyword_pages_empty_step (mce : ℕ) (reports : ℕ → DriverReport)
    (category keyword : String) (page cep rem : ℕ) (st : ScrapeState)
    (acc : List Ad) (f : List ℕ)
    (hb : ¬ mce < st.session.errors.length)
    (hc : st.captcha.should_continue_scraping = true)
    (he : (reports page).empty_success) :
    keyword_pages mce reports category keyword page cep (rem + 1) st acc f =
      if 3 ≤ cep + 1 then
        { st := set_lrt st (reports page).now, keyword_ads := acc,
          fetched := f ++ [page] }
      else
        keyword_pages mce reports category keyword (page + 1) (cep + 1) rem
          (set_lrt st (reports page).now) acc (f ++ [page]) := by
  obtain ⟨h1, h2, h3, h4, h5⟩ := he
  simp only [keyword_pages]
  rw [if_neg hb, if_neg (by rw [hc]; simp)]
  have hres : scrape_page st (reports page) category keyword page =
      { st := set_lrt st (reports page).now, ads := [], success := true,
        waited_after_anomaly := none, entered_captcha_poll := false } := by
    simp [scrape_page, scrape_page_rest, h1, h2, h3, h4, h5, set_lrt,
      SmartDelayManager.wait_between_requests_state]
  rw [hres]
  simp

/-- Three structurally successful empty pages from page 1: the loop
fetches exactly pages 1, 2, 3 and stops, leaving the state unchanged
except for last_request_time. -/
theorem keyword_pages_empty_three (mce : ℕ) (reports : ℕ → DriverReport)
    (category keyword : String) (st : ScrapeState)
    (hb : ¬ mce < st.session.errors.length)
    (hc : st.captcha.should_continue_scraping = true)
    (he : ∀ p, (reports p).empty_success) (n : ℕ) :
    keyword_pages mce reports category keyword 1 0 (n + 3) st [] [] =
      { st := set_lrt st (reports 3).now, keyword_ads := [],
        fetched := [1, 2, 3] } := by
  rw [show n + 3 = (n + 2) + 1 by omega,
    keyword_pages_empty_step mce reports category keyword 1 0 (n + 2) st [] []
      hb hc (he 1),
    if_neg (by omega)]
  rw [show n + 2 = (n + 1) + 1 by omega,
    keyword_pages_empty_step mce reports category keyword 2 1 (n + 1)
      (set_lrt st (reports 1).now) [] ([] ++ [1]) hb hc (he 2),
    if_neg (by omega)]
  rw [keyword_pages_empty_step mce reports category keyword 3 2 n
      (set_lrt (set_lrt st (reports 1).now) (reports 2).now) []
      (([] ++ [1]) ++ [2]) hb hc (he 3),
    if_pos (by omega)]
  simp [set_lrt_set_lrt]

/-- Helper: no branch after the CAPTCHA check touches the session errors
list. -/
theorem scrape_page_rest_errors (st : ScrapeState) (r : DriverReport)
    (category keyword : String) (page_num : ℕ) (entered : Bool) :
    (scrape_page_rest st r category keyword page_num entered).st.session.errors =
      st.session.errors := by
  unfold scrape_page_rest
  split_ifs <;> rfl

/-- Helper: _scrape_page only ever appends to the session errors list. -/
theorem scrape_page_errors_append (st : ScrapeState) (r : DriverReport)
    (category keyword : String) (page_num : ℕ) :
    ∃ tl, (scrape_page st r category keyword page_num).st.session.errors =
      st.session.errors ++ tl := by
  rcases r with ⟨fault, now, cv, cpr, rl, ca, els⟩
  cases fault with
  | some nf =>
      cases nf with
      | webdriver m => exact ⟨[errorEntry page_num m], rfl⟩
      | other m => exact ⟨[errorEntry page_num m], rfl⟩
  | none =>
      refine ⟨[], ?_⟩
      simp only [scrape_page]
      cases cv with
      | false =>
          simp only [Bool.false_eq_true, if_false, List.append_nil]
          exact scrape_page_rest_errors _ _ _ _ _ _
      | true =>
          simp only [if_true, List.append_nil]
          split
          · exact scrape_page_rest_errors _ _ _ _ _ _
          · rfl

/-- Helper: with the error budget exceeded, the page loop exits before
fetching a single page, leaving state and accumulators untouched. -/
theorem keyword_pages_gate (mce : ℕ) (reports : ℕ → DriverReport)
    (category keyword : String) (page cep rem : ℕ) (st : ScrapeState)
    (acc : List Ad) (f : List ℕ) (h : mce < st.session.errors.length) :
    keyword_pages mce reports category keyword page cep rem st acc f =
      { st := st, keyword_ads := acc, fetched := f } := by
  cases rem with
  | zero => rfl
  | succ rem =>
      simp only [keyword_pages]
      rw [if_pos h]

/-- Helper: the page loop only ever appends to the session errors list. -/
theorem keyword_pages_errors_append (mce : ℕ) (reports : ℕ → DriverReport)
    (category keyword : String) :
    ∀ (rem page cep : ℕ) (st : ScrapeState) (acc : List Ad) (f : List ℕ),
      ∃ tl,
        (keyword_pages mce reports category keyword page cep rem st acc f).st.session.errors =
          st.session.errors ++ tl := by
  intro rem
  induction rem with
  | zero => intro page cep st acc f; exact ⟨[], by simp [keyword_pages]⟩
  | succ rem ih =>
      intro page cep st acc f
      simp only [keyword_pages]
      by_cases hb1 : mce < st.session.errors.length
      · rw [if_pos hb1]; exact ⟨[], by simp⟩
      · rw [if_neg hb1]
        by_cases hb2 : st.captcha.should_continue_scraping = false
        · rw [if_pos hb2]; exact ⟨[], by simp⟩
        · rw [if_neg hb2]
          obtain ⟨t1, ht1⟩ :=
            scrape_page_errors_append st (reports page) category keyword page
          by_cases hs :
            (scrape_page st (reports page) category keyword page).success = true
          · rw [if_pos hs]
            by_cases ha :
              (scrape_page st (reports page) category keyword page).ads = []
            · rw [if_pos ha]
              by_cases h3 : 3 ≤ cep + 1
              · rw [if_pos h3]
                exact ⟨t1, ht1⟩
              · rw [if_neg h3]
                obtain ⟨t2, ht2⟩ := ih (page + 1) (cep + 1)
                  (scrape_page st (reports page) category keyword page).st acc
                  (f ++ [page])
                exact ⟨t1 ++ t2, by rw [ht2, ht1, List.append_assoc]⟩
            · rw [if_neg ha]
              obtain ⟨t2, ht2⟩ := ih (page + 1) 0
                (scrape_page st (reports page) category keyword page).st
                (acc ++ (scrape_page st (reports page) category keyword page).ads)
                (f ++ [page])
              exact ⟨t1 ++ t2, by rw [ht2, ht1, List.append_assoc]⟩
          · rw [if_neg hs]
            obtain ⟨t2, ht2⟩ := ih (page + 1) cep
              (scrape_page st (reports page) category keyword page).st acc
              (f ++ [page])
            exact ⟨t1 ++ t2, by rw [ht2, ht1, List.append_assoc]⟩

/-- Helper: with the error budget exceeded, every keyword of the target
exits before fetching, and the state flows through unchanged. -/
theorem scrape_keywords_gate (mce : ℕ) (reports : String → ℕ → DriverReport)
    (category : String) (max_pages : ℕ) :
    ∀ (ks : List String) (st : ScrapeState), mce < st.session.errors.length →
      scrape_keywords mce reports category max_pages ks st = (st, [], []) := by
  intro ks
  induction ks with
  | nil => intro st h; rfl
  | cons k rest ih =>
      intro st h
      simp only [scrape_keywords, scrape_keyword]
      rw [keyword_pages_gate mce (reports k) category k 1 0 max_pages st [] [] h]
      rw [ih st h]
      rfl

/-- Helper: with the error budget exceeded, scrape_target fetches nothing
and returns the state unchanged (total_ads_found grows by zero). -/
theorem scrape_target_gate (mce : ℕ) (reports : String → String → ℕ → DriverReport)
    (max_pages : ℕ) (st : ScrapeState) (t : TargetSpec)
    (h : mce < st.session.errors.length) :
    scrape_target mce reports max_pages st t = (st, [], []) := by
  unfold scrape_target
  rw [scrape_keywords_gate mce (reports t.category) t.category max_pages
    t.keywords st h]
  rfl

/-- Helper: with the error budget exceeded, the whole remaining run
fetches nothing. -/
theorem scrape_all_targets_gate (mce : ℕ)
    (reports : String → String → ℕ → DriverReport) (max_pages : ℕ) :
    ∀ (ts : List TargetSpec) (st : ScrapeState), mce < st.session.errors.length →
      scrape_all_targets mce reports max_pages ts st = (st, [], []) := by
  intro ts
  induction ts with
  | nil => intro st h; rfl
  | cons t rest ih =>
      intro st h
      simp only [scrape_all_targets]
      rw [scrape_target_gate mce reports max_pages st t h, ih st h]
      rfl

/-! ## Concrete fixtures used by witnesses, counterexamples and scenarios -/

/-- Fresh orchestrator state: empty session, delay manager with
min_delay 1 and max_delay 5, CAPTCHA ceiling 5. -/
def st0 : ScrapeState :=
  { session := ScrapingSession.init,
    delay := SmartDelayManager.init 1 5,
    captcha := CaptchaHandler.init 5 }

/-- Report of a structurally successful page with zero ad elements. -/
def emptyPageReport : DriverReport :=
  { fault := none, now := 0, captcha_visible := false,
    captcha_poll_resolves := false, rate_limit_text := false,
    container_appears := true, elements := [] }

/-- Report of a page whose source contains rate-limit text. -/
def rateLimitReport : DriverReport :=
  { fault := none, now := 0, captcha_visible := false,
    captcha_poll_resolves := false, rate_limit_text := true,
    container_appears := true, elements := [] }

/-- Report of a page with a visible CAPTCHA whose manual-resolution poll
times out. -/
def captchaFailReport : DriverReport :=
  { fault := none, now := 0, captcha_visible := true,
    captcha_poll_resolves := false, rate_limit_text := false,
    container_appears := true, elements := [] }

/-- One fully extractable ad element. -/
def oneAdElement : AdElementData :=
  { title_text := some "Velo de course", price_text := some "100",
    href := some "https://example.org/ad", location_text := some "Paris",
    raises := false }

/-- Report of a structurally successful page with one ad element. -/
def adPageReport : DriverReport :=
  { fault := none, now := 0, captcha_visible := false,
    captcha_poll_resolves := false, rate_limit_text := false,
    container_appears := true, elements := [oneAdElement] }

/-- State like st0 but with three consecutive errors recorded, to show
that a successful empty page does not call record_success. -/
def st3 : ScrapeState :=
  { session := ScrapingSession.init,
    delay := { min_delay := 1, max_delay := 5, consecutive_errors := 3,
               last_request_time := none },
    captcha := CaptchaHandler.init 5 }

/-- Helper: handle_captcha_manually always increments captcha_count by
exactly one, in both the over-ceiling and the polling branch. -/
theorem handle_captcha_count (h : CaptchaHandler) (poll : Bool) :
    (h.handle_captcha_manually poll).handler.captcha_count = h.captcha_count + 1 := by
  simp only [CaptchaHandler.handle_captcha_manually]
  split <;> rfl

/-! ## C1: counters on structurally successful pages -/

/-- C1 counterexample: a structurally successful page load with zero ad
elements returns success but increments successfulPages by 0, not 1,
and does not call recordSuccess (consecutive_errors stays 3); after
three such loads in the keyword loop, successfulPages has been
incremented 0 times, not 3 (failedPages is indeed unchanged). -/
theorem empty_success_page_counters_counterexample :
    (scrape_page st3 emptyPageReport "c" "k" 1).success = true ∧
      (scrape_page st3 emptyPageReport "c" "k" 1).st.session.successful_pages = 0 ∧
      (scrape_page st3 emptyPageReport "c" "k" 1).st.delay.consecutive_errors = 3 ∧
      (scrape_keyword 5 (fun _ => emptyPageReport) "c" "k" 10 st0).st.session.successful_pages = 0 ∧
      (scrape_keyword 5 (fun _ => emptyPageReport) "c" "k" 10 st0).st.session.failed_pages = 0 :=
  ⟨rfl, rfl, rfl, rfl, rfl⟩

/-- C1 (amended): delayManager.recordSuccess and the successfulPages
increment happen exactly on structurally successful loads that found at
least one ad element; a structurally successful but empty page returns
success while leaving the whole session, the error count of the delay
manager and the CAPTCHA state unchanged.  In particular three
successful empty loads leave successfulPages at 0 increments (and
failedPages unchanged). -/
theorem empty_success_page_counters_amended (st : ScrapeState) (r : DriverReport)
    (category keyword : String) (page_num : ℕ)
    (hf : r.fault = none) (hcv : r.captcha_visible = false)
    (hrl : r.rate_limit_text = false) (hca : r.container_appears = true) :
    (r.elements = [] →
      (scrape_page st r category keyword page_num).success = true ∧
        (scrape_page st r category keyword page_num).st.session = st.session ∧
        (scrape_page st r category keyword page_num).st.delay.consecutive_errors =
          st.delay.consecutive_errors ∧
        (scrape_page st r category keyword page_num).st.captcha = st.captcha) ∧
      (r.elements ≠ [] →
        (scrape_page st r category keyword page_num).success = true ∧
          (scrape_page st r category keyword page_num).st.session.successful_pages =
            st.session.successful_pages + 1 ∧
          (scrape_page st r category keyword page_num).st.session.failed_pages =
            st.session.failed_pages ∧
          (scrape_page st r category keyword page_num).st.session.errors =
            st.session.errors ∧
          (scrape_page st r category keyword page_num).st.delay.consecutive_errors =
            max 0 (st.delay.consecutive_errors - 1)) := by
  constructor
  · intro he
    simp [scrape_page, scrape_page_rest, hf, hcv, hrl, hca, he,
      SmartDelayManager.wait_between_requests_state]
  · intro he
    simp [scrape_page, scrape_page_rest, hf, hcv, hrl, hca, he,
      SmartDelayManager.record_success,
      SmartDelayManager.wait_between_requests_state]

/-- C1 witness: on a successful page with one ad element starting from
st3, successfulPages goes from 0 to 1 and recordSuccess drops the error
count from 3 to 2. -/
theorem empty_success_page_counters_witness :
    (scrape_page st3 adPageReport "c" "k" 1).success = true ∧
      (scrape_page st3 adPageReport "c" "k" 1).st.session.successful_pages = 0 + 1 ∧
      (scrape_page st3 adPageReport "c" "k" 1).st.session.failed_pages = 0 ∧
      (scrape_page st3 adPageReport "c" "k" 1).st.session.errors = ([] : List String) ∧
      (scrape_page st3 adPageReport "c" "k" 1).st.delay.consecutive_errors = max 0 (3 - 1) :=
  (empty_success_page_counters_amended st3 adPageReport "c" "k" 1
    rfl rfl rfl rfl).2 (by simp [adPageReport])

/-! ## C2: the rate-limit branch -/

/-- C2 counterexample: on a rate-limited page the orchestrator does
invoke wait_after_captcha(60) and reports failure, but failedPages is
NOT incremented (it stays 0), refuting the claimed increment. -/
theorem rate_limit_branch_counterexample :
    (scrape_page st0 rateLimitReport "c" "k" 1).success = false ∧
      (scrape_page st0 rateLimitReport "c" "k" 1).waited_after_anomaly = some 60 ∧
      (scrape_page st0 rateLimitReport "c" "k" 1).ads = [] ∧
      (scrape_page st0 rateLimitReport "c" "k" 1).st.session.failed_pages = 0 :=
  ⟨rfl, rfl, rfl, rfl⟩

/-- C2 (amended): whenever rate-limit text is detected on a fetched page
(no navigation fault, no CAPTCHA), the orchestrator invokes
waitAfterAnomaly(60) — a blocking sleep of 60 + uniformRandom(10, 30)
seconds, i.e. within [70, 90] — reports the page as failed (success =
false), skips extraction and appends no records; however the session is
completely untouched: failedPages is NOT incremented and no error is
recorded. -/
theorem rate_limit_branch_amended (st : ScrapeState) (r : DriverReport)
    (category keyword : String) (page_num : ℕ)
    (hf : r.fault = none) (hcv : r.captcha_visible = false)
    (hrl : r.rate_limit_text = true) :
    (scrape_page st r category keyword page_num).success = false ∧
      (scrape_page st r category keyword page_num).ads = [] ∧
      (scrape_page st r category keyword page_num).waited_after_anomaly = some 60 ∧
      (scrape_page st r category keyword page_num).st.session = st.session ∧
      (scrape_page st r category keyword page_num).st.delay.consecutive_errors =
        st.delay.consecutive_errors ∧
      (scrape_page st r category keyword page_num).st.captcha = st.captcha ∧
      (∀ u : ℚ, 10 ≤ u → u ≤ 30 →
        70 ≤ wait_after_captcha_sleep 60 u ∧ wait_after_captcha_sleep 60 u ≤ 90) := by
  refine ⟨?_, ?_, ?_, ?_, ?_, ?_, ?_⟩ <;>
    first
      | simp [scrape_page, scrape_page_rest, hf, hcv, hrl,
          SmartDelayManager.wait_between_requests_state]
      | (intro u h1 h2
         constructor <;> (unfold wait_after_captcha_sleep; linarith))

/-- C2 witness: the concrete rate-limited fetch from st0, with the
uniform draw 10 giving the minimal sleep 70. -/
theorem rate_limit_branch_witness :
    (scrape_page st0 rateLimitReport "c" "k" 1).waited_after_anomaly = some 60 ∧
      70 ≤ wait_after_captcha_sleep 60 10 ∧ wait_after_captcha_sleep 60 10 ≤ 90 :=
  ⟨(rate_limit_branch_amended st0 rateLimitReport "c" "k" 1 rfl rfl rfl).2.2.1,
    ((rate_limit_branch_amended st0 rateLimitReport "c" "k" 1 rfl rfl rfl).2.2.2.2.2.2
      10 (by norm_num) (by norm_num)).1,
    ((rate_limit_branch_amended st0 rateLimitReport "c" "k" 1 rfl rfl rfl).2.2.2.2.2.2
      10 (by norm_num) (by norm_num)).2⟩

/-! ## C3: a CAPTCHA whose manual resolution fails -/

/-- C3 counterexample: with a fresh handler, a page whose CAPTCHA poll
times out is returned as failed, but no error is recorded in the
session errors list and failedPages is not incremented — refuting the
claimed error recording and increment (waitAfterAnomaly is indeed not
invoked). -/
theorem captcha_failure_page_counterexample :
    (scrape_page st0 captchaFailReport "c" "k" 1).success = false ∧
      (scrape_page st0 captchaFailReport "c" "k" 1).st.session.errors = ([] : List String) ∧
      (scrape_page st0 captchaFailReport "c" "k" 1).st.session.failed_pages = 0 ∧
      (scrape_page st0 captchaFailReport "c" "k" 1).waited_after_anomaly = none :=
  ⟨rfl, rfl, rfl, rfl⟩

/-- C3 (amended): when a CAPTCHA is detected and waitForManualResolution
fails (poll timeout or ceiling exceeded), the page is treated as failed
(success = false, no records) and the loop continues to the next page
without invoking waitAfterAnomaly; the CAPTCHA counter is incremented,
but no error is recorded in the session errors list, failedPages is not
incremented, and the delay manager records nothing.  The closing
conjunct shows the loop fetching page 2 right after such a page 1. -/
theorem captcha_failure_page_amended (st : ScrapeState) (r : DriverReport)
    (category keyword : String) (page_num : ℕ)
    (hf : r.fault = none) (hcv : r.captcha_visible = true)
    (hfail : (st.captcha.handle_captcha_manually r.captcha_poll_resolves).resolved = false) :
    (scrape_page st r category keyword page_num).success = false ∧
      (scrape_page st r category keyword page_num).ads = [] ∧
      (scrape_page st r category keyword page_num).waited_after_anomaly = none ∧
      (scrape_page st r category keyword page_num).st.session = st.session ∧
      (scrape_page st r category keyword page_num).st.delay.consecutive_errors =
        st.delay.consecutive_errors ∧
      (scrape_page st r category keyword page_num).st.captcha.captcha_count =
        st.captcha.captcha_count + 1 ∧
      (scrape_keyword 5 (fun p => if p = 1 then captchaFailReport else emptyPageReport)
        "c" "k" 2 st0).fetched = [1, 2] := by
  refine ⟨?_, ?_, ?_, ?_, ?_, ?_, rfl⟩ <;>
    simp [scrape_page, hf, hcv, hfail, handle_captcha_count,
      SmartDelayManager.wait_between_requests_state]

/-- C3 witness: the concrete CAPTCHA-timeout fetch from st0. -/
theorem captcha_failure_page_witness :
    (scrape_page st0 captchaFailReport "c" "k" 1).st.session = st0.session ∧
      (scrape_page st0 captchaFailReport "c" "k" 1).st.captcha.captcha_count = 0 + 1 :=
  ⟨(captcha_failure_page_amended st0 captchaFailReport "c" "k" 1 rfl rfl rfl).2.2.2.1,
    (captcha_failure_page_amended st0 captchaFailReport "c" "k" 1 rfl rfl rfl).2.2.2.2.2.1⟩

/-! ## C4: saturation of the backoff -/

/-- C4 counterexample: with min_delay 1, max_delay 5 and
consecutive_errors = 5 the base delay is 1 * 1.2^5 = 7776/3125 =
2.48832, which is not the configured max_delay 5 — so the claim that the
base delay equals max_delay for every consecutiveErrors >= 5 is false. -/
theorem backoff_saturation_counterexample :
    SmartDelayManager.base_delay
        { min_delay := 1, max_delay := 5, consecutive_errors := 5,
          last_request_time := none } = 7776 / 3125 ∧
      SmartDelayManager.base_delay
        { min_delay := 1, max_delay := 5, consecutive_errors := 5,
          last_request_time := none } ≠ 5 := by
  have h : SmartDelayManager.base_delay
      { min_delay := 1, max_delay := 5, consecutive_errors := 5,
        last_request_time := none } = 7776 / 3125 := by
    show min ((1 : ℚ) * (1.2 : ℚ) ^ ((min (5 : ℤ) 5).toNat)) 5 = 7776 / 3125
    have e : (min (5 : ℤ) 5).toNat = 5 := by rw [min_self]; rfl
    rw [e, min_eq_left (by norm_num)]
    norm_num
  exact ⟨h, by rw [h]; norm_num⟩

/-- C4 (amended): for every consecutiveErrors >= 5 the base delay is the
constant min(minDelay * 1.2^5, maxDelay) — the backoff saturates in the
error count — and it equals maxDelay exactly when
minDelay * 1.2^5 >= maxDelay. -/
theorem backoff_saturation_amended (m : SmartDelayManager)
    (h : 5 ≤ m.consecutive_errors) :
    m.base_delay = min (m.min_delay * (1.2 : ℚ) ^ 5) m.max_delay ∧
      (m.max_delay ≤ m.min_delay * (1.2 : ℚ) ^ 5 → m.base_delay = m.max_delay) := by
  have h5 : min m.consecutive_errors 5 = 5 := min_eq_right h
  have hb : m.base_delay = min (m.min_delay * (1.2 : ℚ) ^ 5) m.max_delay := by
    unfold SmartDelayManager.base_delay
    rw [h5]
    rfl
  exact ⟨hb, fun hle => by rw [hb]; exact min_eq_right hle⟩

/-- C4 witness: a state with consecutive_errors = 7 (min_delay 2,
max_delay 3, where 2 * 1.2^5 >= 3) has base delay min(2 * 1.2^5, 3) = 3. -/
theorem backoff_saturation_witness :
    SmartDelayManager.base_delay
        { min_delay := 2, max_delay := 3, consecutive_errors := 7,
          last_request_time := none } = 3 :=
  (backoff_saturation_amended
      { min_delay := 2, max_delay := 3, consecutive_errors := 7,
        last_request_time := none } (by decide)).2 (by norm_num)

/-! ## C5: the CAPTCHA ceiling stops crawling and blocks no further -/

/-- C5: with captcha_count = max_captcha_encounters + 1,
should_continue_scraping returns false, and handle_captcha_manually
increments the count, observes it above the ceiling and returns false
without entering the blocking poll-wait. -/
theorem captcha_ceiling_stop (h : CaptchaHandler) (poll : Bool)
    (hc : h.captcha_count = h.max_captcha_encounters + 1) :
    h.should_continue_scraping = false ∧
      (h.handle_captcha_manually poll).resolved = false ∧
      (h.handle_captcha_manually poll).entered_poll = false ∧
      (h.handle_captcha_manually poll).handler.captcha_count = h.captcha_count + 1 := by
  have hstep : h.handle_captcha_manually poll =
      { handler := { max_captcha_encounters := h.max_captcha_encounters,
                     captcha_count := h.captcha_count + 1 },
        resolved := false, entered_poll := false } := by
    simp only [CaptchaHandler.handle_captcha_manually]
    rw [if_pos (show h.max_captcha_encounters < h.captcha_count + 1 by omega)]
  refine ⟨?_, ?_, ?_, ?_⟩
  · simp [CaptchaHandler.should_continue_scraping, hc]
  · rw [hstep]
  · rw [hstep]
  · rw [hstep]

/-- C5 witness: a handler with ceiling 5 and count 6. -/
theorem captcha_ceiling_stop_witness :
    CaptchaHandler.should_continue_scraping
        { max_captcha_encounters := 5, captcha_count := 6 } = false ∧
      (CaptchaHandler.handle_captcha_manually
        { max_captcha_encounters := 5, captcha_count := 6 } true).resolved = false ∧
      (CaptchaHandler.handle_captcha_manually
        { max_captcha_encounters := 5, captcha_count := 6 } true).entered_poll = false ∧
      (CaptchaHandler.handle_captcha_manually
        { max_captcha_encounters := 5, captcha_count := 6 } true).handler.captcha_count = 6 + 1 :=
  captcha_ceiling_stop { max_captcha_encounters := 5, captcha_count := 6 } true rfl

/-! ## C8: the success-rate accessor is guarded and total -/

/-- C8: success_rate equals successfulPages / (successfulPages +
failedPages) * 100 when the denominator is positive and 0 when it is 0;
the guarded division makes the accessor total, with value always in
[0, 100]. -/
theorem success_rate_guarded (s : ScrapingSession) :
    (s.successful_pages + s.failed_pages = 0 → s.success_rate = 0) ∧
      (0 < s.successful_pages + s.failed_pages →
        s.success_rate =
          (s.successful_pages : ℚ) / ((s.successful_pages : ℚ) + (s.failed_pages : ℚ)) * 100) ∧
      0 ≤ s.success_rate ∧ s.success_rate ≤ 100 := by
  unfold ScrapingSession.success_rate
  rcases Nat.eq_zero_or_pos (s.successful_pages + s.failed_pages) with h0 | hpos
  · refine ⟨fun _ => by simp [h0], fun hc => absurd h0 (by omega), by simp [h0], by simp [h0]⟩
  · have hne : ¬ s.successful_pages + s.failed_pages = 0 := by omega
    have hcast : ((s.successful_pages + s.failed_pages : ℕ) : ℚ) =
        (s.successful_pages : ℚ) + (s.failed_pages : ℚ) := by push_cast; ring
    have hposq : (0 : ℚ) < (s.successful_pages : ℚ) + (s.failed_pages : ℚ) := by
      rw [← hcast]; exact_mod_cast hpos
    refine ⟨fun hc => absurd hc hne, fun _ => by simp [hpos, hcast], ?_, ?_⟩
    · simp only [hpos, if_true, hcast]
      positivity
    · simp only [hpos, if_true, hcast]
      have hle : (s.successful_pages : ℚ) / ((s.successful_pages : ℚ) + (s.failed_pages : ℚ)) ≤ 1 := by
        rw [div_le_one hposq]
        have : (s.failed_pages : ℚ) ≥ 0 := by positivity
        linarith
      calc (s.successful_pages : ℚ) / ((s.successful_pages : ℚ) + (s.failed_pages : ℚ)) * 100
          ≤ 1 * 100 := by
            exact mul_le_mul_of_nonneg_right hle (by norm_num)
        _ = 100 := by norm_num

/-- C8 witness: a fresh session with no pages has success rate 0. -/
theorem success_rate_guarded_witness :
    ScrapingSession.success_rate ScrapingSession.init = 0 :=
  (success_rate_guarded ScrapingSession.init).1 rfl

/-! ## C9: nonnegativity of consecutive_errors -/

/-- Helper: folding any interleaving of record_success / record_error
calls over a state with nonnegative consecutive_errors keeps it
nonnegative. -/
theorem apply_ops_nonneg (ops : List DelayOp) (m : SmartDelayManager)
    (h : 0 ≤ m.consecutive_errors) :
    0 ≤ (ops.foldl SmartDelayManager.apply_op m).consecutive_errors := by
  induction ops generalizing m with
  | nil => exact h
  | cons op rest ih =>
      refine ih (m.apply_op op) ?_
      cases op with
      | success =>
          simp [SmartDelayManager.apply_op, SmartDelayManager.record_success]
      | error =>
          simp [SmartDelayManager.apply_op, SmartDelayManager.record_error]
          omega

/-- C9: consecutive_errors >= 0 is an invariant: record_error increments
by one, record_success sets max(0, consecutive_errors - 1) and so never
goes below 0, each operation preserves nonnegativity, and every
interleaving of calls starting from a fresh manager (consecutive_errors
= 0) stays nonnegative. -/
theorem consecutive_errors_nonneg :
    (∀ m : SmartDelayManager,
        m.record_error.consecutive_errors = m.consecutive_errors + 1) ∧
      (∀ m : SmartDelayManager,
        m.record_success.consecutive_errors = max 0 (m.consecutive_errors - 1) ∧
          0 ≤ m.record_success.consecutive_errors) ∧
      (∀ (m : SmartDelayManager) (op : DelayOp),
        0 ≤ m.consecutive_errors → 0 ≤ (m.apply_op op).consecutive_errors) ∧
      (∀ (mn mx : ℚ) (ops : List DelayOp),
        0 ≤ ((ops.foldl SmartDelayManager.apply_op
          (SmartDelayManager.init mn mx)).consecutive_errors)) := by
  refine ⟨fun m => rfl, fun m => ⟨rfl, ?_⟩, fun m op h => ?_, fun mn mx ops => ?_⟩
  · simp [SmartDelayManager.record_success]
  · cases op with
    | success => simp [SmartDelayManager.apply_op, SmartDelayManager.record_success]
    | error =>
        simp [SmartDelayManager.apply_op, SmartDelayManager.record_error]
        omega
  · exact apply_ops_nonneg ops (SmartDelayManager.init mn mx) (by simp [SmartDelayManager.init])

/-- C9 witness: one success call on a fresh manager leaves the error
count at 0, not -1. -/
theorem consecutive_errors_nonneg_witness :
    0 ≤ (SmartDelayManager.apply_op (SmartDelayManager.init 1 5)
      DelayOp.success).consecutive_errors :=
  consecutive_errors_nonneg.2.2.1 (SmartDelayManager.init 1 5) DelayOp.success
    (by decide)

/-! ## C10: the non-empty-title invariant of Ad -/

/-- C10 counterexample: an Ad constructed with the whitespace-only title
" " (truthy in Python, so the sentinel branch is skipped and strip
yields "") carries an empty title, refuting the claim that no record
ever carries an empty title. -/
theorem ad_title_sentinel_counterexample :
    (mkAd " " "100" "https://example.org" "Paris").title = "" := by
  rfl

/-- C10 (amended): at construction an empty input title is replaced by
the sentinel "Titre non disponible"; a non-empty input is stripped, so
the constructed title is empty exactly when the input title is
non-empty but strips to nothing (whitespace-only) — such records do
carry an empty title. -/
theorem ad_title_sentinel_amended (title price url location : String) :
    ((mkAd title price url location).title = "" ↔
        (¬ title = "" ∧ pyStrip title = "")) ∧
      (title = "" → (mkAd title price url location).title = "Titre non disponible") := by
  unfold mkAd
  by_cases ht : title = ""
  · simp [ht]
  · simp [ht]

/-- C10 witness: the empty input title yields the sentinel. -/
theorem ad_title_sentinel_witness :
    (mkAd "" "100" "https://example.org" "Paris").title = "Titre non disponible" :=
  (ad_title_sentinel_amended "" "100" "https://example.org" "Paris").2 rfl

/-! ## C6: the consecutive-empty-pages stop condition -/

/-- C6: the per-keyword consecutiveEmptyPages counter is reset to 0 by a
successful page with records and incremented by a structurally
successful empty page (first two conjuncts, with the budget checks
intact); for a keyword whose pages are all structurally successful and
empty the loop fetches exactly pages 1, 2, 3 — page 4 is never fetched —
yields no records, and changes nothing the crawl logic observes; and
the remaining keywords of the target are completely unaffected: their
records, their fetched pages and the observable final state coincide
with a run in which the exhausted keyword was absent. -/
theorem empty_pages_stop_pagination (mce : ℕ) (reports : String → ℕ → DriverReport)
    (category k : String) (rest : List String) (max_pages : ℕ) (st : ScrapeState)
    (hb : st.session.errors.length ≤ mce)
    (hc : st.captcha.should_continue_scraping = true)
    (he : ∀ p, (reports k p).empty_success)
    (hmp : 3 ≤ max_pages) :
    (∀ (page cep rem : ℕ) (st2 : ScrapeState) (acc : List Ad) (f : List ℕ),
      ¬ mce < st2.session.errors.length →
      st2.captcha.should_continue_scraping = true →
      (scrape_page st2 (reports k page) category k page).success = true →
      (scrape_page st2 (reports k page) category k page).ads ≠ [] →
      keyword_pages mce (reports k) category k page cep (rem + 1) st2 acc f =
        keyword_pages mce (reports k) category k (page + 1) 0 rem
          (scrape_page st2 (reports k page) category k page).st
          (acc ++ (scrape_page st2 (reports k page) category k page).ads)
          (f ++ [page])) ∧
      (∀ (page cep rem : ℕ) (st2 : ScrapeState) (acc : List Ad) (f : List ℕ),
        ¬ mce < st2.session.errors.length →
        st2.captcha.should_continue_scraping = true →
        (scrape_page st2 (reports k page) category k page).success = true →
        (scrape_page st2 (reports k page) category k page).ads = [] →
        cep + 1 < 3 →
        keyword_pages mce (reports k) category k page cep (rem + 1) st2 acc f =
          keyword_pages mce (reports k) category k (page + 1) (cep + 1) rem
            (scrape_page st2 (reports k page) category k page).st acc
            (f ++ [page])) ∧
      (scrape_keyword mce (reports k) category k max_pages st).fetched = [1, 2, 3] ∧
      4 ∉ (scrape_keyword mce (reports k) category k max_pages st).fetched ∧
      (scrape_keyword mce (reports k) category k max_pages st).keyword_ads = [] ∧
      scrub (scrape_keyword mce (reports k) category k max_pages st).st = scrub st ∧
      (scrape_keywords mce reports category max_pages (k :: rest) st).2.1 =
        (scrape_keywords mce reports category max_pages rest st).2.1 ∧
      (scrape_keywords mce reports category max_pages (k :: rest) st).2.2 =
        [(k, 1), (k, 2), (k, 3)] ++
          (scrape_keywords mce reports category max_pages rest st).2.2 ∧
      scrub (scrape_keywords mce reports category max_pages (k :: rest) st).1 =
        scrub (scrape_keywords mce reports category max_pages rest st).1 := by
  obtain ⟨n, rfl⟩ : ∃ n, max_pages = n + 3 := ⟨max_pages - 3, by omega⟩
  have hb2 : ¬ mce < st.session.errors.length := by omega
  have hkr : scrape_keyword mce (reports k) category k (n + 3) st =
      { st := set_lrt st ((reports k) 3).now, keyword_ads := [],
        fetched := [1, 2, 3] } := by
    unfold scrape_keyword
    exact keyword_pages_empty_three mce (reports k) category k st hb2 hc he n
  obtain ⟨iA, iB, iC⟩ := scrape_keywords_scrub_congr mce reports category (n + 3)
    rest (set_lrt st ((reports k) 3).now) st (scrub_set_lrt st _)
  refine ⟨?_, ?_, ?_, ?_, ?_, ?_, ?_, ?_, ?_⟩
  · intro page cep rem st2 acc f hg1 hg2 hg3 hg4
    simp only [keyword_pages]
    rw [if_neg hg1, if_neg (by rw [hg2]; simp), if_pos hg3, if_neg hg4]
  · intro page cep rem st2 acc f hg1 hg2 hg3 hg4 hg5
    simp only [keyword_pages]
    rw [if_neg hg1, if_neg (by rw [hg2]; simp), if_pos hg3, if_pos hg4,
      if_neg (by omega)]
  · rw [hkr]
  · rw [hkr]; simp
  · rw [hkr]
  · rw [hkr]; exact scrub_set_lrt st _
  · simp only [scrape_keywords]
    rw [hkr, iB]
    simp
  · simp only [scrape_keywords]
    rw [hkr, iC]
    rfl
  · simp only [scrape_keywords]
    rw [hkr]
    exact iA

/-- C6 witness: from the fresh state, a keyword whose three first pages
are empty fetches exactly pages 1, 2 and 3 of max_pages = 5. -/
theorem empty_pages_stop_pagination_witness :
    (scrape_keyword 5 (fun _ => emptyPageReport) "c" "a" 5 st0).fetched = [1, 2, 3] := by
  have hE : emptyPageReport.empty_success := by decide
  exact (empty_pages_stop_pagination 5 (fun _ _ => emptyPageReport) "c" "a" ["b"] 5 st0
    (by decide) (by decide) (fun _ => hE) (by decide)).2.2.1

/-! ## C7: the error budget halts the whole remaining run -/

/-- C7: the session errors list is append-only through every page fetch
and every page loop (first and third conjuncts); a page loop whose
entry state already exceeds maxConsecutiveErrors exits before fetching
a single page (second conjunct); consequently a whole remaining run —
every keyword of every remaining target — started in a state whose
errors list exceeds the budget fetches no page at all and returns its
state unchanged (fourth conjunct). -/
theorem error_budget_halts_run :
    (∀ (st : ScrapeState) (r : DriverReport) (c k : String) (p : ℕ),
      ∃ tl, (scrape_page st r c k p).st.session.errors = st.session.errors ++ tl) ∧
      (∀ (mce : ℕ) (reports : ℕ → DriverReport) (c k : String)
        (page cep rem : ℕ) (st : ScrapeState) (acc : List Ad) (f : List ℕ),
        mce < st.session.errors.length →
        keyword_pages mce reports c k page cep rem st acc f =
          { st := st, keyword_ads := acc, fetched := f }) ∧
      (∀ (mce : ℕ) (reports : ℕ → DriverReport) (c k : String)
        (rem page cep : ℕ) (st : ScrapeState) (acc : List Ad) (f : List ℕ),
        ∃ tl,
          (keyword_pages mce reports c k page cep rem st acc f).st.session.errors =
            st.session.errors ++ tl) ∧
      (∀ (mce : ℕ) (reports : String → String → ℕ → DriverReport)
        (max_pages : ℕ) (ts : List TargetSpec) (st : ScrapeState),
        mce < st.session.errors.length →
        scrape_all_targets mce reports max_pages ts st = (st, [], [])) :=
  ⟨scrape_page_errors_append,
    fun mce reports c k page cep rem st acc f h =>
      keyword_pages_gate mce reports c k page cep rem st acc f h,
    fun mce reports c k rem page cep st acc f =>
      keyword_pages_errors_append mce reports c k rem page cep st acc f,
    fun mce reports max_pages ts st h =>
      scrape_all_targets_gate mce reports max_pages ts st h⟩

/-- State whose error list (length 2) already exceeds the budget 1. -/
def stE : ScrapeState :=
  { session := { total_ads_found := 0, successful_pages := 0, failed_pages := 0,
                 captcha_encounters := 0, errors := ["Page 1: boom", "Page 2: boom"] },
    delay := SmartDelayManager.init 1 5,
    captcha := CaptchaHandler.init 5 }

/-- C7 witness: a run over one target started with 2 errors against a
budget of 1 fetches nothing and returns its state unchanged. -/
theorem error_budget_halts_run_witness :
    scrape_all_targets 1 (fun _ _ _ => emptyPageReport) 5
      [{ name := "t", category := "c", keywords := ["k"] }] stE = (stE, [], []) :=
  error_budget_halts_run.2.2.2 1 (fun _ _ _ => emptyPageReport) 5
    [{ name := "t", category := "c", keywords := ["k"] }] stE (by decide)

end LBC
